import Mathlib

/-!
# blockdev: the probe dispatcher and the partition kinds

A shallow embedding of `probe.go` (`blockdev.Probe`) and of
`parttable/parttable.go` (`PartType`, `PartType.String`, `Partition`,
`PartTable`, `ErrPartTableNotFound`).

* Go `int` values are `Int`.
* A Go `error` that is not nil is a `GoError`; a Go `error` is an
  `Option GoError`, `none` being nil.
* A `parttable.PartTable` interface value is an `Option PartTable`, `none`
  being nil; a table is the value of its three queries.
* The opened `*os.File` is a `File`: the device behind it and the read
  position.  The two decoders `mbr.Probe` and `gpt.Probe` and the value
  `mbr.ErrGPTProtectiveMBR` belong to packages outside this development, so
  `Probe` takes them from its environment `Env`.
* `Probe` returns, next to its two Go results, the list of the calls it made
  on its collaborators, in program order.
* `Process.Probe` is `Probe` in a process: the handle it opens is an entry of
  the descriptor table that successive calls share.  A decoder sees the handle
  (name, device, position), not the descriptor.
-/

set_option maxRecDepth 100000

namespace blockdev

/-! ## Go errors and `errors.Is` -/

/-- A Go error value that is not nil.  `new` is a value made by `errors.New`:
it is a pointer, so two such values are the same error only when they are the
same allocation, which `addr` stands for.  `wrap` is a value that wraps
another one (as `fmt.Errorf` with `%w` makes).  `path` is a `*fs.PathError` as
package `os` returns it, `&PathError{Op: op, Path: path, Err: err}`: every
failing call allocates its own, so it is recorded by its three fields. -/
inductive GoError where
  | new (addr : Nat) (text : String)
  | wrap (addr : Nat) (text : String) (inner : GoError)
  | path (op : String) (path : String) (err : GoError)
  deriving DecidableEq, Repr

/-- Go `errors.Is(err, target)` for `err` and `target` not nil: walk the chain
of `err`, comparing each link with `target`. -/
def errorsIs : GoError → GoError → Bool
  | .new a s, target => decide (GoError.new a s = target)
  | .wrap a s inner, target =>
    decide (GoError.wrap a s inner = target) || errorsIs inner target
  | .path op p inner, target =>
    decide (GoError.path op p inner = target) || errorsIs inner target

namespace parttable

/-- Source: `var ErrPartTableNotFound = errors.New("partition table not found")`. -/
def ErrPartTableNotFound : GoError := GoError.new 1 "partition table not found"

/-- Source: `type PartType int`. -/
abbrev PartType := Int

/-- Source: `Primary PartType = iota + 1`. -/
def Primary : PartType := 0 + 1

/-- Source: `Extended`, the second constant of the `iota + 1` block. -/
def Extended : PartType := 1 + 1

/-- Source: `Logical`, the third constant of the `iota + 1` block. -/
def Logical : PartType := 2 + 1

/-- Source: `func (pt PartType) String() string`. -/
def PartType.String (pt : PartType) : String :=
  if pt = Primary then "primary"
  else if pt = Extended then "extended"
  else if pt = Logical then "logical"
  else ""

/-- Source: `type Partition struct`. -/
structure Partition where
  Number : Int
  UUID : String
  Type_ : PartType
  deriving DecidableEq, Repr

/-- Source: `type PartTable interface`: a table is what its three queries
`UUID()`, `Type()` and `Partitions()` answer; the map is a list of its
key/value pairs. -/
structure PartTable where
  UUID : String
  Type_ : String
  Partitions : List (Int × Partition)
  deriving DecidableEq, Repr

end parttable

open parttable

/-! ## The byte source -/

/-- A block device or file as the operating system presents it: its bytes,
and the error number its `lseek` reports when it cannot be repositioned. -/
structure Device where
  data : List Nat
  seekErr : Option GoError
  deriving DecidableEq, Repr

/-- An open `*os.File`: the name it was opened under, the device and the
current read position. -/
structure File where
  name : String
  dev : Device
  pos : Nat
  deriving DecidableEq, Repr

/-- Go `os.SEEK_SET`. -/
def SEEK_SET : Int := 0

/-- The outcome of `os.OpenFile(filename, os.O_RDONLY, os.ModeDevice)` on a
system whose names resolve as `files` says: an error, or a fresh handle
positioned at the first byte. -/
def OpenFile (files : String → Except GoError Device) (filename : String) :
    Except GoError File :=
  match files filename with
  | .error err => .error err
  | .ok dev => .ok { name := filename, dev := dev, pos := 0 }

/-- Go `(*os.File).Seek(offset, whence)`: the new offset, the error, and the
handle afterwards.  On a device that cannot seek the handle keeps its position
and the error is the `*fs.PathError` of operation `seek` on the name of the
handle around the error number; so it is for a seek to a negative offset or
with an unknown `whence`. -/
def File.Seek (f : File) (offset : Int) (whence : Int) : Int × Option GoError × File :=
  match f.dev.seekErr with
  | some err => (0, some (GoError.path "seek" f.name err), f)
  | none =>
    let target : Int :=
      if whence = 0 then offset
      else if whence = 1 then (f.pos : Int) + offset
      else if whence = 2 then (f.dev.data.length : Int) + offset
      else -1
    if target < 0 then
      (0, some (GoError.path "seek" f.name (GoError.new 22 "invalid argument")), f)
    else (target, none, { f with pos := target.toNat })

/-! ## The dispatcher -/

/-- What a decoder (`mbr.Probe`, `gpt.Probe`) does with the handle it is
given: the `(parttable.PartTable, error)` pair it returns and the position it
leaves the handle at. -/
abbrev Decoder := File → (Option PartTable × Option GoError) × Nat

/-- Everything `Probe` takes from outside `probe.go`: the named devices, the
two decoders and the hand-off error value of package `mbr`. -/
structure Env where
  files : String → Except GoError Device
  mbrProbe : Decoder
  gptProbe : Decoder
  ErrGPTProtectiveMBR : GoError

/-- A call `Probe` makes on a collaborator, with the handle as it is at the
moment of the call. -/
inductive Call where
  | OpenFile (filename : String)
  | mbrProbe (devFile : File)
  | Seek (devFile : File) (offset whence : Int)
  | gptProbe (devFile : File)
  | Close
  deriving DecidableEq, Repr

/-- The two results of `Probe` and the calls it made, in order. -/
structure Run where
  table : Option PartTable
  err : Option GoError
  calls : List Call
  deriving DecidableEq, Repr

/-- Source: `func Probe(filename string) (parttable.PartTable, error)`. -/
def Probe (env : Env) (filename : String) : Run :=
  match OpenFile env.files filename with
  | .error err => { table := none, err := some err, calls := [.OpenFile filename] }
  | .ok devFile =>
    let r := env.mbrProbe devFile
    let devFile1 : File := { devFile with pos := r.2 }
    match r.1.2 with
    | none =>
      { table := r.1.1, err := none,
        calls := [.OpenFile filename, .mbrProbe devFile, .Close] }
    | some err =>
      if !errorsIs err ErrPartTableNotFound && !errorsIs err env.ErrGPTProtectiveMBR then
        { table := none, err := some err,
          calls := [.OpenFile filename, .mbrProbe devFile, .Close] }
      else
        match devFile1.Seek 512 SEEK_SET with
        | (_, some err, _) =>
          { table := none, err := some err,
            calls := [.OpenFile filename, .mbrProbe devFile,
                      .Seek devFile1 512 SEEK_SET, .Close] }
        | (_, none, devFile2) =>
          let g := env.gptProbe devFile2
          { table := g.1.1, err := g.1.2,
            calls := [.OpenFile filename, .mbrProbe devFile,
                      .Seek devFile1 512 SEEK_SET, .gptProbe devFile2, .Close] }

/-- Exactly one of a table and an error is present. -/
def exactlyOne (r : Option PartTable × Option GoError) : Bool :=
  (r.1.isSome && r.2.isNone) || (r.1.isNone && r.2.isSome)

/-! ## The dispatcher in a process

`Probe` above runs on the handle it opens.  In the process that handle is an
entry of the descriptor table, next to whatever other files are open, and two
calls of `Probe` share that table.  `Process.Probe` is the same function with
the table made explicit: every read of the handle goes through the table and
every change of position is written back to it. -/

/-- Go `os.ErrClosed`. -/
def ErrClosed : GoError := GoError.new 5 "file already closed"

/-- What a descriptor that is not open reads as: an empty file whose seek
fails with `os.ErrClosed`. -/
def closedFile : File :=
  { name := "", dev := { data := [], seekErr := some ErrClosed }, pos := 0 }

/-- The descriptor table of the process: the open handles by descriptor, and
the descriptor the next open gets. -/
structure FileTable where
  handles : List (Nat × File)
  nextFd : Nat
  deriving DecidableEq, Repr

/-- The handle of descriptor `fd`, when it is open. -/
def findHandle : List (Nat × File) → Nat → Option File
  | [], _ => none
  | (k, f) :: rest, fd => if k = fd then some f else findHandle rest fd

/-- Replace the handle of descriptor `fd`. -/
def setHandle : List (Nat × File) → Nat → File → List (Nat × File)
  | [], _, _ => []
  | (k, g) :: rest, fd, f =>
    if k = fd then (k, f) :: rest else (k, g) :: setHandle rest fd f

/-- Remove descriptor `fd`. -/
def dropHandle : List (Nat × File) → Nat → List (Nat × File)
  | [], _ => []
  | (k, f) :: rest, fd => if k = fd then rest else (k, f) :: dropHandle rest fd

/-- Go `os.OpenFile` in the process: on success the fresh handle, positioned
at the first byte, enters the table under the next descriptor. -/
def FileTable.openFile (t : FileTable) (files : String → Except GoError Device)
    (filename : String) : Except GoError Nat × FileTable :=
  match OpenFile files filename with
  | .error err => (.error err, t)
  | .ok devFile =>
    (.ok t.nextFd,
     { handles := (t.nextFd, devFile) :: t.handles, nextFd := t.nextFd + 1 })

/-- The handle a descriptor stands for at this moment. -/
def FileTable.file (t : FileTable) (fd : Nat) : File :=
  (findHandle t.handles fd).getD closedFile

/-- Write back the handle of a descriptor after an operation on it. -/
def FileTable.store (t : FileTable) (fd : Nat) (f : File) : FileTable :=
  { t with handles := setHandle t.handles fd f }

/-- Go `(*os.File).Close`: the descriptor leaves the table. -/
def FileTable.Close (t : FileTable) (fd : Nat) : FileTable :=
  { t with handles := dropHandle t.handles fd }

/-- Source: `func Probe(filename string) (parttable.PartTable, error)`, run in
a process whose descriptor table is `t`: the run, and the table afterwards. -/
def Process.Probe (env : Env) (t : FileTable) (filename : String) : Run × FileTable :=
  match t.openFile env.files filename with
  | (.error err, t0) =>
    ({ table := none, err := some err, calls := [.OpenFile filename] }, t0)
  | (.ok fd, t0) =>
    let devFile := t0.file fd
    let r := env.mbrProbe devFile
    let t1 := t0.store fd { devFile with pos := r.2 }
    match r.1.2 with
    | none =>
      ({ table := r.1.1, err := none,
         calls := [.OpenFile filename, .mbrProbe devFile, .Close] }, t1.Close fd)
    | some err =>
      if !errorsIs err ErrPartTableNotFound && !errorsIs err env.ErrGPTProtectiveMBR then
        ({ table := none, err := some err,
           calls := [.OpenFile filename, .mbrProbe devFile, .Close] }, t1.Close fd)
      else
        let devFile1 := t1.file fd
        match devFile1.Seek 512 SEEK_SET with
        | (_, some err, devFile2) =>
          ({ table := none, err := some err,
             calls := [.OpenFile filename, .mbrProbe devFile,
                       .Seek devFile1 512 SEEK_SET, .Close] },
           (t1.store fd devFile2).Close fd)
        | (_, none, devFile2) =>
          let t2 := t1.store fd devFile2
          let devFile3 := t2.file fd
          let g := env.gptProbe devFile3
          ({ table := g.1.1, err := g.1.2,
             calls := [.OpenFile filename, .mbrProbe devFile,
                       .Seek devFile1 512 SEEK_SET, .gptProbe devFile3, .Close] },
           (t2.store fd { devFile3 with pos := g.2 }).Close fd)

/-! ## Inputs for the concrete instances

The decoders live outside `probe.go`; the concrete instances below run `Probe`
with the two small decoders of this section, which read one sector at the read
position and answer from its signature bytes alone. -/

/-- Go `io.EOF`. -/
def ioEOF : GoError := GoError.new 2 "EOF"

/-- The hand-off error value used in the concrete instances. -/
def protectiveMBR : GoError := GoError.new 3 "GPT protective MBR found"

/-- The 512 bytes at the read position, when the device has that many. -/
def readSector (f : File) : Option (List Nat) :=
  let s := (f.dev.data.drop f.pos).take 512
  if s.length = 512 then some s else none

/-- A Classic decoder by the sector signature: a short read is `io.EOF`, a
sector without `55 AA` at its end is not found, an entry of type `EE` hands
off, and any other sector is an empty `msdos` table. -/
def signatureMbrProbe : Decoder := fun f =>
  match readSector f with
  | none => ((none, some ioEOF), f.dev.data.length)
  | some s =>
    if s.getD 510 0 = 0x55 ∧ s.getD 511 0 = 0xAA then
      if 0xEE ∈ [s.getD 450 0, s.getD 466 0, s.getD 482 0, s.getD 498 0] then
        ((none, some protectiveMBR), f.pos + 512)
      else ((some { UUID := "", Type_ := "msdos", Partitions := [] }, none), f.pos + 512)
    else ((none, some ErrPartTableNotFound), f.pos + 512)

/-- The bytes `EFI PART`. -/
def efiPart : List Nat := [0x45, 0x46, 0x49, 0x20, 0x50, 0x41, 0x52, 0x54]

/-- A GUID decoder by the sector signature: a short read is `io.EOF`, a sector
that does not start with `EFI PART` is not found, and any other sector yields
the table `t`. -/
def signatureGptProbe (t : PartTable) : Decoder := fun f =>
  match readSector f with
  | none => ((none, some ioEOF), f.dev.data.length)
  | some s =>
    if s.take 8 = efiPart then
      ((some t, none), f.pos + 512)
    else ((none, some ErrPartTableNotFound), f.pos + 512)

/-- The table `TestGPTProbe` expects of `gpt.testdata`. -/
def gptTestdataTable : PartTable :=
  { UUID := "6ce102c7-cfc2-4b1c-b658-02ba8cd9f58f", Type_ := "gpt",
    Partitions :=
      [(1, { Number := 1, UUID := "0d167e49-2c8d-4c6c-ad82-b5e66b6a9eda", Type_ := Primary }),
       (2, { Number := 2, UUID := "a183b96b-072c-4236-ae9a-d8adce39859d", Type_ := Primary }),
       (3, { Number := 3, UUID := "89fc4f86-1519-47c8-a9f1-11ed504c8f18", Type_ := Primary }),
       (4, { Number := 4, UUID := "8a7d885f-88ba-4734-bbc7-90881480a5a6", Type_ := Primary })] }

/-- A sector with `55 AA` at its end whose first entry has type code `code`. -/
def classicSector (code : Nat) : List Nat :=
  List.replicate 450 0 ++ [code] ++ List.replicate 59 0 ++ [0x55, 0xAA]

/-- A seekable device of 1024 zero bytes. -/
def zeroDevice : Device := { data := List.replicate 1024 0, seekErr := none }

/-- A seekable device with a protective first sector and a GUID header. -/
def gptDevice : Device :=
  { data := classicSector 0xEE ++ efiPart ++ List.replicate 504 0, seekErr := none }

/-- A seekable device with an empty Classic table and a GUID header after it. -/
def emptyClassicDevice : Device :=
  { data := classicSector 0 ++ efiPart ++ List.replicate 504 0, seekErr := none }

/-- A device of 100 bytes: too short for one sector. -/
def shortDevice : Device := { data := List.replicate 100 0, seekErr := none }

/-- A device of 1024 zero bytes that cannot seek. -/
def pipeDevice : Device :=
  { data := List.replicate 1024 0, seekErr := some (GoError.new 29 "illegal seek") }

/-- A seekable device with a protective first sector and zeros after it. -/
def protectiveOnlyDevice : Device :=
  { data := classicSector 0xEE ++ List.replicate 512 0, seekErr := none }

/-- The environment of the concrete instances: one device under the name
`dev`, and the two signature decoders. -/
def sampleEnv (dev : Device) : Env :=
  { files := fun name =>
      if name = "dev" then .ok dev
      else .error (GoError.path "open" name (GoError.new 4 "no such file or directory")),
    mbrProbe := signatureMbrProbe,
    gptProbe := signatureGptProbe gptTestdataTable,
    ErrGPTProtectiveMBR := protectiveMBR }

/-- The environment `sampleEnv gptDevice` with a Classic decoder that walks
129 sectors and then reports a wrapped `ErrPartTableNotFound`. -/
def walkingEnv : Env :=
  { sampleEnv gptDevice with
    mbrProbe := fun _ =>
      ((none, some (GoError.wrap 5 "mbr: probe" ErrPartTableNotFound)), 66048) }

/-- A descriptor table in which the protective device is already open twice,
the handles standing at offsets 66048 and 512. -/
def busyTable : FileTable :=
  { handles := [(4, { name := "dev", dev := gptDevice, pos := 66048 }),
                (3, { name := "dev", dev := gptDevice, pos := 512 })],
    nextFd := 5 }

/-! ## Lemmas on the paths of `Probe` -/

/-- The call `Seek(512, os.SEEK_SET)` fails with the device error, or moves to 512. -/
theorem Seek_512_SEEK_SET (f : File) :
    f.Seek 512 SEEK_SET =
      match f.dev.seekErr with
      | some err => (0, some (GoError.path "seek" f.name err), f)
      | none => (512, none, { f with pos := 512 }) := by
  unfold File.Seek SEEK_SET
  cases f.dev.seekErr <;> simp

/-- The function `Probe` with the seek evaluated: its five paths. -/
theorem Probe_paths (env : Env) (filename : String) :
    Probe env filename =
      match OpenFile env.files filename with
      | .error err => { table := none, err := some err, calls := [.OpenFile filename] }
      | .ok devFile =>
        match (env.mbrProbe devFile).1.2 with
        | none =>
          { table := (env.mbrProbe devFile).1.1, err := none,
            calls := [.OpenFile filename, .mbrProbe devFile, .Close] }
        | some err =>
          if errorsIs err ErrPartTableNotFound = false ∧
              errorsIs err env.ErrGPTProtectiveMBR = false then
            { table := none, err := some err,
              calls := [.OpenFile filename, .mbrProbe devFile, .Close] }
          else
            match devFile.dev.seekErr with
            | some serr =>
              { table := none, err := some (GoError.path "seek" devFile.name serr),
                calls := [.OpenFile filename, .mbrProbe devFile,
                          .Seek { devFile with pos := (env.mbrProbe devFile).2 } 512 SEEK_SET,
                          .Close] }
            | none =>
              { table := (env.gptProbe { devFile with pos := 512 }).1.1,
                err := (env.gptProbe { devFile with pos := 512 }).1.2,
                calls := [.OpenFile filename, .mbrProbe devFile,
                          .Seek { devFile with pos := (env.mbrProbe devFile).2 } 512 SEEK_SET,
                          .gptProbe { devFile with pos := 512 }, .Close] } := by
  unfold Probe
  cases hopen : OpenFile env.files filename with
  | error e => rfl
  | ok devFile =>
    simp only []
    cases hm : (env.mbrProbe devFile).1.2 with
    | none => rfl
    | some err =>
      simp only [Seek_512_SEEK_SET]
      by_cases h : errorsIs err ErrPartTableNotFound = false ∧
          errorsIs err env.ErrGPTProtectiveMBR = false
      · simp [h.1, h.2]
      · have h2 : (!errorsIs err ErrPartTableNotFound &&
            !errorsIs err env.ErrGPTProtectiveMBR) = false := by
          cases h1 : errorsIs err ErrPartTableNotFound <;>
            cases h3 : errorsIs err env.ErrGPTProtectiveMBR <;> simp_all
        simp only [h2, if_neg h]
        cases hs : devFile.dev.seekErr <;> simp

/-- A handle made by `OpenFile` is positioned at the first byte. -/
theorem OpenFile_pos (files : String → Except GoError Device) (filename : String)
    (devFile : File) (hopen : OpenFile files filename = .ok devFile) : devFile.pos = 0 := by
  unfold OpenFile at hopen
  cases hf : files filename with
  | error e => simp [hf] at hopen
  | ok dev =>
    simp only [hf, Except.ok.injEq] at hopen
    rw [← hopen]

/-- The run of `Process.Probe` does not depend on the descriptor table: it is
the run of `Probe`. -/
theorem Process_Probe_run (env : Env) (t : FileTable) (filename : String) :
    (Process.Probe env t filename).1 = Probe env filename := by
  unfold Process.Probe Probe FileTable.openFile
  cases hopen : OpenFile env.files filename with
  | error e => rfl
  | ok devFile =>
    simp only [FileTable.file, FileTable.store, findHandle, setHandle, if_true,
      Option.getD_some]
    cases hm : (env.mbrProbe devFile).1.2 with
    | none => rfl
    | some err =>
      simp only []
      split
      · rfl
      · simp only [findHandle, if_true, Option.getD_some, Seek_512_SEEK_SET]
        cases hs : devFile.dev.seekErr with
        | some serr => rfl
        | none =>
          simp only [setHandle, findHandle, if_true, Option.getD_some]

/-- After `Process.Probe` the table holds the handles it held before. -/
theorem Process_Probe_handles (env : Env) (t : FileTable) (filename : String) :
    (Process.Probe env t filename).2.handles = t.handles := by
  unfold Process.Probe FileTable.openFile
  cases hopen : OpenFile env.files filename with
  | error e => rfl
  | ok devFile =>
    simp only [FileTable.file, FileTable.store, FileTable.Close, findHandle, setHandle,
      dropHandle, if_true, Option.getD_some]
    cases hm : (env.mbrProbe devFile).1.2 with
    | none => simp [dropHandle]
    | some err =>
      simp only []
      split
      · simp [dropHandle]
      · simp only [findHandle, if_true, Option.getD_some, Seek_512_SEEK_SET]
        cases hs : devFile.dev.seekErr with
        | some serr => simp [setHandle, dropHandle]
        | none => simp [setHandle, dropHandle]

/-- The signature Classic decoder returns exactly one of a table and an error. -/
theorem signatureMbrProbe_exactlyOne (f : File) :
    exactlyOne (signatureMbrProbe f).1 = true := by
  unfold signatureMbrProbe
  split
  · rfl
  · split
    · split <;> rfl
    · rfl

/-- The signature GUID decoder returns exactly one of a table and an error. -/
theorem signatureGptProbe_exactlyOne (t : PartTable) (f : File) :
    exactlyOne (signatureGptProbe t f).1 = true := by
  unfold signatureGptProbe
  split
  · rfl
  · split <;> rfl

/-- No error of the signature GUID decoder matches the hand-off value. -/
theorem signatureGptProbe_no_handoff (t : PartTable) (f : File) (e : GoError)
    (h : (signatureGptProbe t f).1.2 = some e) : errorsIs e protectiveMBR = false := by
  unfold signatureGptProbe at h
  split at h
  · simp only [Option.some.injEq] at h
    rw [← h]; decide
  · split at h
    · simp at h
    · simp only [Option.some.injEq] at h
      rw [← h]; decide

/-! ## Properties of the dispatcher -/

/-- C1: when the Classic decoder fails with an error that `errors.Is` matches
to `ErrPartTableNotFound` or to `ErrGPTProtectiveMBR`, and the seek to 512
succeeds, `Probe` returns exactly the table and the error the GUID decoder
returns for the handle at offset 512, whatever they are. -/
theorem Probe_fallback_returns_gpt_outcome (env : Env) (filename : String)
    (devFile : File) (err : GoError)
    (hopen : OpenFile env.files filename = .ok devFile)
    (hmbr : (env.mbrProbe devFile).1.2 = some err)
    (his : errorsIs err ErrPartTableNotFound = true ∨
      errorsIs err env.ErrGPTProtectiveMBR = true)
    (hseek : (File.Seek { devFile with pos := (env.mbrProbe devFile).2 } 512 SEEK_SET).2.1
      = none) :
    ((Probe env filename).table, (Probe env filename).err)
      = (env.gptProbe { devFile with pos := 512 }).1 := by
  have hs : devFile.dev.seekErr = none := by
    rw [Seek_512_SEEK_SET] at hseek
    cases h : devFile.dev.seekErr with
    | none => rfl
    | some e => simp [h] at hseek
  have hn : ¬ (errorsIs err ErrPartTableNotFound = false ∧
      errorsIs err env.ErrGPTProtectiveMBR = false) := by
    rcases his with h | h <;> simp [h]
  rw [Probe_paths]
  simp only [hopen, hmbr, if_neg hn, hs]

/-- The instance of C1 on a protective first sector followed by a GUID header:
the Classic decoder hands off and `Probe` returns the GUID table with its four
partitions. -/
theorem Probe_fallback_returns_gpt_outcome_witness :
    (signatureMbrProbe { name := "dev", dev := gptDevice, pos := 0 }).1.2 = some protectiveMBR ∧
    ((Probe (sampleEnv gptDevice) "dev").table, (Probe (sampleEnv gptDevice) "dev").err)
      = (signatureGptProbe gptTestdataTable { name := "dev", dev := gptDevice, pos := 512 }).1 ∧
    (signatureGptProbe gptTestdataTable { name := "dev", dev := gptDevice, pos := 512 }).1
      = (some gptTestdataTable, none) :=
  ⟨by decide,
   Probe_fallback_returns_gpt_outcome (sampleEnv gptDevice) "dev"
     { name := "dev", dev := gptDevice, pos := 0 } protectiveMBR rfl (by decide) (Or.inr (by decide))
     (by decide),
   by decide⟩

/-- C2: when the Classic decoder fails with an error that `errors.Is` matches
neither to `ErrPartTableNotFound` nor to `ErrGPTProtectiveMBR`, `Probe` returns
a nil table and that error, and makes no call after the Classic decoder but
the deferred close: no seek, no GUID decoder. -/
theorem Probe_other_classic_error_is_fatal (env : Env) (filename : String)
    (devFile : File) (err : GoError)
    (hopen : OpenFile env.files filename = .ok devFile)
    (hmbr : (env.mbrProbe devFile).1.2 = some err)
    (hnf : errorsIs err ErrPartTableNotFound = false)
    (hgf : errorsIs err env.ErrGPTProtectiveMBR = false) :
    (Probe env filename).table = none ∧
    (Probe env filename).err = some err ∧
    (Probe env filename).calls = [.OpenFile filename, .mbrProbe devFile, .Close] ∧
    (∀ f o w, Call.Seek f o w ∉ (Probe env filename).calls) ∧
    (∀ f, Call.gptProbe f ∉ (Probe env filename).calls) := by
  have hp : Probe env filename =
      { table := none, err := some err,
        calls := [.OpenFile filename, .mbrProbe devFile, .Close] } := by
    rw [Probe_paths]
    simp only [hopen, hmbr, hnf, hgf, and_self, if_true]
  rw [hp]
  simp

/-- The instance of C2 on a device shorter than one sector: the Classic
decoder fails with `io.EOF` and `Probe` stops there. -/
theorem Probe_other_classic_error_is_fatal_witness :
    (Probe (sampleEnv shortDevice) "dev").table = none ∧
    (Probe (sampleEnv shortDevice) "dev").err = some ioEOF ∧
    (Probe (sampleEnv shortDevice) "dev").calls
      = [.OpenFile "dev", .mbrProbe { name := "dev", dev := shortDevice, pos := 0 }, .Close] ∧
    (∀ f o w, Call.Seek f o w ∉ (Probe (sampleEnv shortDevice) "dev").calls) ∧
    (∀ f, Call.gptProbe f ∉ (Probe (sampleEnv shortDevice) "dev").calls) :=
  Probe_other_classic_error_is_fatal (sampleEnv shortDevice) "dev"
    { name := "dev", dev := shortDevice, pos := 0 } ioEOF rfl (by decide) (by decide) (by decide)

/-- C3: when the Classic decoder succeeds, `Probe` returns the table it
produced and a nil error, and makes no call after the Classic decoder but the
deferred close: no seek to 512, no GUID decoder. -/
theorem Probe_classic_success_is_final (env : Env) (filename : String)
    (devFile : File)
    (hopen : OpenFile env.files filename = .ok devFile)
    (hmbr : (env.mbrProbe devFile).1.2 = none) :
    (Probe env filename).table = (env.mbrProbe devFile).1.1 ∧
    (Probe env filename).err = none ∧
    (Probe env filename).calls = [.OpenFile filename, .mbrProbe devFile, .Close] ∧
    (∀ f o w, Call.Seek f o w ∉ (Probe env filename).calls) ∧
    (∀ f, Call.gptProbe f ∉ (Probe env filename).calls) := by
  have hp : Probe env filename =
      { table := (env.mbrProbe devFile).1.1, err := none,
        calls := [.OpenFile filename, .mbrProbe devFile, .Close] } := by
    rw [Probe_paths]
    simp only [hopen, hmbr]
  rw [hp]
  simp

/-- The instance of C3 on an empty Classic table followed by a GUID header:
`Probe` returns the empty `msdos` table and does not look at the header. -/
theorem Probe_classic_success_is_final_witness :
    (Probe (sampleEnv emptyClassicDevice) "dev").table
      = some { UUID := "", Type_ := "msdos", Partitions := [] } ∧
    (signatureGptProbe gptTestdataTable { name := "dev", dev := emptyClassicDevice, pos := 512 }).1
      = (some gptTestdataTable, none) ∧
    (Probe (sampleEnv emptyClassicDevice) "dev").err = none ∧
    (∀ f, Call.gptProbe f ∉ (Probe (sampleEnv emptyClassicDevice) "dev").calls) :=
  have h := Probe_classic_success_is_final (sampleEnv emptyClassicDevice) "dev"
    { name := "dev", dev := emptyClassicDevice, pos := 0 } rfl (by decide)
  ⟨h.1.trans (by decide), by decide, h.2.1, h.2.2.2.2⟩

/-- C4: every call of the GUID decoder that `Probe` makes is on the handle
positioned at offset 512, whatever position the Classic decoder left; it is
the handle of the opened device, and the call right before it is the seek to
512 from the position the Classic decoder left. -/
theorem Probe_gpt_invoked_only_at_512 (env : Env) (filename : String) (f : File)
    (hcall : Call.gptProbe f ∈ (Probe env filename).calls) :
    f.pos = 512 ∧
    ∃ devFile, OpenFile env.files filename = .ok devFile ∧ f.dev = devFile.dev ∧
      (Probe env filename).calls =
        [.OpenFile filename, .mbrProbe devFile,
         .Seek { devFile with pos := (env.mbrProbe devFile).2 } 512 SEEK_SET,
         .gptProbe f, .Close] := by
  rw [Probe_paths] at hcall ⊢
  cases hopen : OpenFile env.files filename with
  | error e => simp [hopen] at hcall
  | ok devFile =>
    simp only [hopen] at hcall ⊢
    cases hm : (env.mbrProbe devFile).1.2 with
    | none => simp [hm] at hcall
    | some err =>
      simp only [hm] at hcall ⊢
      by_cases h : errorsIs err ErrPartTableNotFound = false ∧
          errorsIs err env.ErrGPTProtectiveMBR = false
      · simp [if_pos h] at hcall
      · simp only [if_neg h] at hcall ⊢
        cases hs : devFile.dev.seekErr with
        | some serr => simp [hs] at hcall
        | none =>
          simp only [hs, List.mem_cons, Call.gptProbe.injEq, List.mem_singleton,
            reduceCtorEq, false_or, or_false, List.not_mem_nil] at hcall ⊢
          subst hcall
          exact ⟨rfl, devFile, rfl, rfl, rfl⟩

/-- The instance of C4 with a Classic decoder that leaves the handle at offset
66048: the seek starts there and the GUID decoder is called at 512. -/
theorem Probe_gpt_invoked_only_at_512_witness :
    Call.gptProbe { name := "dev", dev := gptDevice, pos := 512 } ∈ (Probe walkingEnv "dev").calls ∧
    Call.Seek { name := "dev", dev := gptDevice, pos := 66048 } 512 SEEK_SET
      ∈ (Probe walkingEnv "dev").calls ∧
    (File.mk "dev" gptDevice 512).pos = 512 :=
  ⟨by decide, by decide,
   (Probe_gpt_invoked_only_at_512 walkingEnv "dev" { name := "dev", dev := gptDevice, pos := 512 }
     (by decide)).1⟩

/-- C5: with decoders that each return exactly one of a table and an error,
`Probe` returns exactly one of a table and an error; and a table `Probe`
returns is the one the Classic decoder produced for the opened device when it
succeeded, and otherwise the one the GUID decoder produced for it at 512. -/
theorem Probe_exactly_one_result (env : Env) (filename : String)
    (hm : ∀ f, exactlyOne (env.mbrProbe f).1 = true)
    (hg : ∀ f, exactlyOne (env.gptProbe f).1 = true) :
    exactlyOne ((Probe env filename).table, (Probe env filename).err) = true ∧
    ∀ t, (Probe env filename).table = some t →
      ∃ devFile, OpenFile env.files filename = .ok devFile ∧
        ((env.mbrProbe devFile).1 = (some t, none) ∨
         ((env.mbrProbe devFile).1.2 ≠ none ∧
          (env.gptProbe { devFile with pos := 512 }).1 = (some t, none))) := by
  rw [Probe_paths]
  cases hopen : OpenFile env.files filename with
  | error e => simp [exactlyOne]
  | ok devFile =>
    simp only []
    have hm1 := hm devFile
    have hg1 := hg { devFile with pos := 512 }
    cases hr : (env.mbrProbe devFile).1.2 with
    | none =>
      simp only [exactlyOne, hr] at hm1 ⊢
      refine ⟨by simpa using hm1, ?_⟩
      intro t ht
      refine ⟨devFile, rfl, Or.inl ?_⟩
      exact Prod.ext ht hr
    | some err =>
      simp only []
      by_cases h : errorsIs err ErrPartTableNotFound = false ∧
          errorsIs err env.ErrGPTProtectiveMBR = false
      · simp [if_pos h, exactlyOne]
      · simp only [if_neg h]
        cases hs : devFile.dev.seekErr with
        | some serr => simp [exactlyOne]
        | none =>
          simp only []
          refine ⟨by simpa [exactlyOne] using hg1, ?_⟩
          intro t ht
          refine ⟨devFile, rfl, Or.inr ⟨by simp [hr], ?_⟩⟩
          have h2 : (env.gptProbe { devFile with pos := 512 }).1.2 = none := by
            simp only [exactlyOne, ht] at hg1
            simpa using hg1
          exact Prod.ext ht h2

/-- The instance of C5 on the protective device with the signature decoders:
`Probe` returns the GUID table and no error. -/
theorem Probe_exactly_one_result_witness :
    (Probe (sampleEnv gptDevice) "dev").table = some gptTestdataTable ∧
    exactlyOne ((Probe (sampleEnv gptDevice) "dev").table,
      (Probe (sampleEnv gptDevice) "dev").err) = true :=
  ⟨by decide,
   (Probe_exactly_one_result (sampleEnv gptDevice) "dev" signatureMbrProbe_exactlyOne
     (signatureGptProbe_exactlyOne gptTestdataTable)).1⟩

/-- C6: on a seekable device of at least 1024 bytes, all zero, for which the
Classic decoder at offset 0 reports an error matching `ErrPartTableNotFound`
and the GUID decoder at offset 512 reports a nil table and an error matching
`ErrPartTableNotFound`, `Probe` returns a nil table and an error matching
`ErrPartTableNotFound`; the GUID decoder is the last stage. -/
theorem Probe_all_zero_device_not_found (env : Env) (filename : String) (dev : Device)
    (_hlen : 1024 ≤ dev.data.length) (_hzero : ∀ b ∈ dev.data, b = 0)
    (hseek : dev.seekErr = none)
    (hfile : env.files filename = .ok dev)
    (hmbr : ∃ e, (env.mbrProbe { name := filename, dev := dev, pos := 0 }).1.2 = some e ∧
      errorsIs e ErrPartTableNotFound = true)
    (hgpt : ∃ e, (env.gptProbe { name := filename, dev := dev, pos := 512 }).1 = (none, some e) ∧
      errorsIs e ErrPartTableNotFound = true) :
    (Probe env filename).table = none ∧
    (∃ e, (Probe env filename).err = some e ∧ errorsIs e ErrPartTableNotFound = true) ∧
    (Probe env filename).calls.getLast? = some .Close ∧
    (Probe env filename).calls.dropLast.getLast? = some (.gptProbe { name := filename, dev := dev, pos := 512 }) := by
  obtain ⟨e1, hm1, his1⟩ := hmbr
  obtain ⟨e2, hg1, his2⟩ := hgpt
  have hopen : OpenFile env.files filename = .ok { name := filename, dev := dev, pos := 0 } := by
    simp [OpenFile, hfile]
  have hn : ¬ (errorsIs e1 ErrPartTableNotFound = false ∧
      errorsIs e1 env.ErrGPTProtectiveMBR = false) := by simp [his1]
  have hp : Probe env filename =
      { table := none, err := some e2,
        calls := [.OpenFile filename, .mbrProbe { name := filename, dev := dev, pos := 0 },
                  .Seek { name := filename, dev := dev, pos := (env.mbrProbe { name := filename, dev := dev, pos := 0 }).2 }
                    512 SEEK_SET,
                  .gptProbe { name := filename, dev := dev, pos := 512 }, .Close] } := by
    rw [Probe_paths]
    simp only [hopen, hm1, if_neg hn, hseek, hg1]
  rw [hp]
  exact ⟨rfl, ⟨e2, rfl, his2⟩, rfl, rfl⟩

/-- The instance of C6 on 1024 zero bytes with the signature decoders. -/
theorem Probe_all_zero_device_not_found_witness :
    (Probe (sampleEnv zeroDevice) "dev").table = none ∧
    (∃ e, (Probe (sampleEnv zeroDevice) "dev").err = some e ∧
      errorsIs e ErrPartTableNotFound = true) ∧
    (Probe (sampleEnv zeroDevice) "dev").calls.getLast? = some .Close ∧
    (Probe (sampleEnv zeroDevice) "dev").calls.dropLast.getLast?
      = some (.gptProbe { name := "dev", dev := zeroDevice, pos := 512 }) :=
  Probe_all_zero_device_not_found (sampleEnv zeroDevice) "dev" zeroDevice
    (by decide) (fun _ hb => List.eq_of_mem_replicate hb) rfl rfl
    ⟨ErrPartTableNotFound, by decide, by decide⟩
    ⟨ErrPartTableNotFound, by decide, by decide⟩

/-- C7: in a process with any descriptor table, whatever handles are open in
it and wherever they stand, a call of `Probe` and a second call of `Probe` on
the table the first one left return the same table and the same error and
make the same calls; each of the two is the run of the dispatcher on a handle
of its own at position 0, which the Classic decoder is given; and the first
call leaves the handles of the table as it found them, only the next
descriptor has moved on. -/
theorem Probe_deterministic (env : Env) (t : FileTable) (filename : String) :
    (Process.Probe env (Process.Probe env t filename).2 filename).1
      = (Process.Probe env t filename).1 ∧
    (Process.Probe env t filename).1 = Probe env filename ∧
    (Process.Probe env (Process.Probe env t filename).2 filename).1 = Probe env filename ∧
    (Process.Probe env t filename).2.handles = t.handles ∧
    (∀ devFile, OpenFile env.files filename = .ok devFile →
      devFile.pos = 0 ∧
      (Process.Probe env (Process.Probe env t filename).2 filename).1.calls.take 2
        = [.OpenFile filename, .mbrProbe devFile]) := by
  have h1 := Process_Probe_run env t filename
  have h2 := Process_Probe_run env (Process.Probe env t filename).2 filename
  refine ⟨h2.trans h1.symm, h1, h2, Process_Probe_handles env t filename, ?_⟩
  intro devFile hopen
  refine ⟨OpenFile_pos env.files filename devFile hopen, ?_⟩
  rw [h2, Probe_paths]
  simp only [hopen]
  split
  · rfl
  · split
    · rfl
    · split <;> rfl

/-- The instance of C7 on the protective device, in a process that already
holds two handles on it at offsets 66048 and 512: both calls return the GUID
table, and the first one moves the next descriptor from 5 to 6. -/
theorem Probe_deterministic_witness :
    (Process.Probe (sampleEnv gptDevice) busyTable "dev").1.table = some gptTestdataTable ∧
    (Process.Probe (sampleEnv gptDevice) busyTable "dev").2
      = { handles := busyTable.handles, nextFd := 6 } ∧
    (Process.Probe (sampleEnv gptDevice)
        (Process.Probe (sampleEnv gptDevice) busyTable "dev").2 "dev").1
      = (Process.Probe (sampleEnv gptDevice) busyTable "dev").1 :=
  ⟨by decide, by decide, (Probe_deterministic (sampleEnv gptDevice) busyTable "dev").1⟩

/-- C8: when the Classic decoder fails with an error matching
`ErrPartTableNotFound` or `ErrGPTProtectiveMBR` and the seek to 512 fails,
`Probe` returns a nil table and the error of the seek, and does not call the
GUID decoder. -/
theorem Probe_seek_failure_is_returned (env : Env) (filename : String)
    (devFile : File) (err serr : GoError)
    (hopen : OpenFile env.files filename = .ok devFile)
    (hmbr : (env.mbrProbe devFile).1.2 = some err)
    (his : errorsIs err ErrPartTableNotFound = true ∨
      errorsIs err env.ErrGPTProtectiveMBR = true)
    (hseek : (File.Seek { devFile with pos := (env.mbrProbe devFile).2 } 512 SEEK_SET).2.1
      = some serr) :
    (Probe env filename).table = none ∧
    (Probe env filename).err = some serr ∧
    (∀ f, Call.gptProbe f ∉ (Probe env filename).calls) := by
  have hn : ¬ (errorsIs err ErrPartTableNotFound = false ∧
      errorsIs err env.ErrGPTProtectiveMBR = false) := by
    rcases his with h | h <;> simp [h]
  rw [Seek_512_SEEK_SET] at hseek
  rw [Probe_paths]
  cases h : devFile.dev.seekErr with
  | none => simp [h] at hseek
  | some e =>
    simp only [h, Option.some.injEq] at hseek
    simp only [hopen, hmbr, if_neg hn, h, hseek]
    simp

/-- The instance of C8 on a zero device that cannot seek. -/
theorem Probe_seek_failure_is_returned_witness :
    (Probe (sampleEnv pipeDevice) "dev").table = none ∧
    (Probe (sampleEnv pipeDevice) "dev").err
      = some (GoError.path "seek" "dev" (GoError.new 29 "illegal seek")) ∧
    (∀ f, Call.gptProbe f ∉ (Probe (sampleEnv pipeDevice) "dev").calls) :=
  Probe_seek_failure_is_returned (sampleEnv pipeDevice) "dev"
    { name := "dev", dev := pipeDevice, pos := 0 } ErrPartTableNotFound
    (GoError.path "seek" "dev" (GoError.new 29 "illegal seek"))
    rfl (by decide) (Or.inl (by decide)) (by decide)

/-- C9: on an opened device, if no error of the seek and no error of the GUID
decoder matches `ErrGPTProtectiveMBR`, then the error `Probe` returns does not
match `ErrGPTProtectiveMBR`: the hand-off error of the Classic decoder never
reaches the caller. -/
theorem Probe_never_surfaces_handoff (env : Env) (filename : String) (devFile : File)
    (hopen : OpenFile env.files filename = .ok devFile)
    (hseek : ∀ pos e, (File.Seek { devFile with pos := pos } 512 SEEK_SET).2.1 = some e →
      errorsIs e env.ErrGPTProtectiveMBR = false)
    (hgpt : ∀ f e, (env.gptProbe f).1.2 = some e →
      errorsIs e env.ErrGPTProtectiveMBR = false)
    (e : GoError) (he : (Probe env filename).err = some e) :
    errorsIs e env.ErrGPTProtectiveMBR = false := by
  rw [Probe_paths] at he
  simp only [hopen] at he
  cases hm : (env.mbrProbe devFile).1.2 with
  | none => simp [hm] at he
  | some err =>
    simp only [hm] at he
    by_cases h : errorsIs err ErrPartTableNotFound = false ∧
        errorsIs err env.ErrGPTProtectiveMBR = false
    · simp only [if_pos h, Option.some.injEq] at he
      rw [← he]; exact h.2
    · simp only [if_neg h] at he
      cases hs : devFile.dev.seekErr with
      | some serr =>
        simp only [hs, Option.some.injEq] at he
        apply hseek 0 e
        rw [Seek_512_SEEK_SET]
        simp [hs, he]
      | none =>
        simp only [hs] at he
        exact hgpt _ e he

/-- The instance of C9 on a protective first sector with no GUID header: the
Classic decoder hands off, and `Probe` returns the GUID decoder's
`ErrPartTableNotFound`. -/
theorem Probe_never_surfaces_handoff_witness :
    (signatureMbrProbe { name := "dev", dev := protectiveOnlyDevice, pos := 0 }).1.2 = some protectiveMBR ∧
    (Probe (sampleEnv protectiveOnlyDevice) "dev").err = some ErrPartTableNotFound ∧
    errorsIs ErrPartTableNotFound protectiveMBR = false :=
  ⟨by decide, by decide,
   Probe_never_surfaces_handoff (sampleEnv protectiveOnlyDevice) "dev"
     { name := "dev", dev := protectiveOnlyDevice, pos := 0 } rfl
     (fun pos e h => by rw [Seek_512_SEEK_SET] at h; simp [protectiveOnlyDevice] at h)
     (signatureGptProbe_no_handoff gptTestdataTable)
     ErrPartTableNotFound (by decide)⟩

/-! ## The partition kinds -/

/-- C10: `PartType.String` maps `Primary` to `primary`, `Extended` to
`extended` and `Logical` to `logical`, and every other value, 0 among them,
to the empty string; the kinds are 1, 2 and 3; the function is injective on
them and is non-empty exactly on them. -/
theorem PartType_String_table :
    PartType.String Primary = "primary" ∧
    PartType.String Extended = "extended" ∧
    PartType.String Logical = "logical" ∧
    (Primary = 1 ∧ Extended = 2 ∧ Logical = 3) ∧
    (∀ pt : PartType, pt ≠ Primary → pt ≠ Extended → pt ≠ Logical →
      PartType.String pt = "") ∧
    PartType.String 0 = "" ∧
    (∀ a ∈ [Primary, Extended, Logical], ∀ b ∈ [Primary, Extended, Logical],
      PartType.String a = PartType.String b → a = b) ∧
    (∀ pt : PartType, PartType.String pt ≠ "" ↔ pt ∈ [Primary, Extended, Logical]) := by
  refine ⟨by decide, by decide, by decide, by decide, ?_, by decide, by decide, ?_⟩
  · intro pt h1 h2 h3
    simp [PartType.String, h1, h2, h3]
  · intro pt
    by_cases h1 : pt = Primary
    · subst h1; decide
    · by_cases h2 : pt = Extended
      · subst h2; decide
      · by_cases h3 : pt = Logical
        · subst h3; decide
        · simp [PartType.String, h1, h2, h3]

end blockdev
